import Mathlib

/-!
Verification of the uio-test-system tester (src/uio-test-system.sdk/tester/src/main.c).

The program is modelled as trace-producing functions: each system call and
each memory-mapped register access is recorded as an `Event`.  System-call
results (return value of `open`, success of `mmap`, return values of the
`write`/`read` calls on the device file, values read from hardware registers)
are supplied by oracles (`RunEnv`, `IterOracle`), since they come from the
kernel and the peripheral, not from the program.  The target is the 32-bit
ARM (Zynq) platform of the SDK: `unsigned long`, `size_t` and `ssize_t` are
4 bytes wide; `ssize_t`-to-`size_t` conversion is reduction modulo 2^32.
-/

namespace UioTest

/-! Register map constants from main.c (lines 85-94). -/

def AXI_GPIO_ADDR_SIZE : Nat := 0x00010000
def AXI_GPIO_DATA_OFFSET : Nat := 0x00000000
def AXI_GPIO_TRI_OFFSET : Nat := 0x00000004
def AXI_GPIO_GIER_OFFSET : Nat := 0x0000011C
def AXI_GPIO_IPISR_OFFSET : Nat := 0x00000120
def AXI_GPIO_IPIER_OFFSET : Nat := 0x00000128

/-- GIER enable bit, `(1 << 31)` in main.c line 94. -/
def AXI_GPIO_GIER_ENABLE : Nat := 1 <<< 31

def EXIT_SUCCESS : Nat := 0
def EXIT_FAILURE : Nat := 1
def SIGINT : Nat := 2
def SIGKILL : Nat := 9

/-- Width in bytes of `unsigned long` (= `sizeof(en)` = `sizeof(ier)` =
`sizeof(unsigned long)`) on the 32-bit ARM target. -/
def szUlong : Nat := 4

/-- Conversion of a C `ssize_t` value (the return of `write`/`read`) to
`size_t`, as happens at `nb = write(...)` in main.c line 199: reduction
modulo 2^32 on the 32-bit target.  In particular -1 becomes 2^32 - 1. -/
def toSizeT (i : Int) : Nat := (i % ((2 : Int) ^ 32)).toNat

/-- Observable actions of the program: system calls, register accesses and
diagnostic output, in program order. -/
inductive Event where
  | openCall (path : String)
  | printError (msg : String)
  | mmapCall (fd : Int)
  | closeCall
  | munmapCall
  | regRead (offset : Nat) (val : Nat)
  | regWrite (offset : Nat) (val : Nat)
  | usleepCall (usec : Nat)
  | devWrite (nbytes : Nat) (ret : Int)
  | devRead (nbytes : Nat) (ret : Int)
  | printMsg (msg : String)
  | exitCall (code : Nat)
  deriving DecidableEq

/-- How a run of `uio_run` ends: with `EXIT_FAILURE`, with `EXIT_SUCCESS`,
or still looping when the supplied oracle list runs out (the C loop
`while (1)` has no exit condition besides the error path, so a run that never
hits the error path never terminates; `running` stands for that). -/
inductive RunResult where
  | exitSuccess
  | exitFailure
  | running
  deriving DecidableEq

/-- Oracle for one iteration of the interrupt wait loop: the kernel results
of the `write` and `read` calls on the device file, the value left in the
`npending` variable by the read, and the hardware values produced by the
two register reads of the handling branch. -/
structure IterOracle where
  writeRet : Int
  readRet : Int
  npending : Nat
  isrVal : Nat
  dataVal : Nat

/-- Oracle for a whole `uio_run` call: result of `open`, whether `mmap`
succeeds, the initial hardware values of the direction and interrupt-enable
registers, and the per-iteration oracles of the wait loop. -/
structure RunEnv where
  openRet : Int
  mmapOk : Bool
  tri0 : Nat
  ier0 : Nat
  iters : List IterOracle

/-- One iteration of the `while (1)` loop of `uio_run` (main.c lines
196-223).  Returns the events of the iteration and `some code` when the
iteration exits the function (the short-write error path), `none` when the
loop continues.  Note the C code stores the `ssize_t` result of `write`
into the `size_t` variable `nb` before the `nb < sizeof(en)` test, and the
result of the wait `read` is stored into `nb` but never checked. -/
def loopIter (o : IterOracle) : List Event × Option Nat :=
  let nb := toSizeT o.writeRet
  if nb < szUlong then
    ([Event.devWrite szUlong o.writeRet,
      Event.printError "Unmasking interrupts",
      Event.munmapCall, Event.closeCall], some EXIT_FAILURE)
  else
    let evs0 := [Event.devWrite szUlong o.writeRet,
                 Event.devRead szUlong o.readRet]
    if o.npending ≠ 0 then
      (evs0 ++
        [Event.printMsg "Interrupt was detected",
         Event.regRead AXI_GPIO_IPISR_OFFSET o.isrVal] ++
        (if o.isrVal ≠ 0
          then [Event.regWrite AXI_GPIO_IPISR_OFFSET o.isrVal] else []) ++
        [Event.regRead AXI_GPIO_DATA_OFFSET o.dataVal], none)
    else
      (evs0, none)

/-- The `while (1)` loop of `uio_run`, driven by a finite list of
iteration oracles: it runs until an iteration exits or the list is
exhausted (result `running`). -/
def runLoop : List IterOracle → List Event × RunResult
  | [] => ([], RunResult.running)
  | o :: rest =>
    match loopIter o with
    | (evs, some code) =>
      (evs, if code = EXIT_SUCCESS then RunResult.exitSuccess
            else RunResult.exitFailure)
    | (evs, none) =>
      let r := runLoop rest
      (evs ++ r.1, r.2)

/-- The events of the peripheral initialization sequence of `uio_run`
(main.c lines 179-192), given the initial hardware values of the
direction (`tri`) and interrupt-enable (`ier`) registers. -/
def initEvents (tri0 ier0 : Nat) : List Event :=
  [Event.regWrite AXI_GPIO_GIER_OFFSET 0,
   Event.regRead AXI_GPIO_TRI_OFFSET tri0,
   Event.regWrite AXI_GPIO_TRI_OFFSET (tri0 ||| 1),
   Event.regRead AXI_GPIO_IPIER_OFFSET ier0,
   Event.regWrite AXI_GPIO_IPIER_OFFSET (ier0 ||| 1),
   Event.regWrite AXI_GPIO_GIER_OFFSET AXI_GPIO_GIER_ENABLE,
   Event.usleepCall 50000]

/-- `uio_run` (main.c lines 146-229).  Faithful points: when `open` fails
(`fd < 0`) the code only prints a diagnostic with the hardcoded text
"/dev/uio0" and falls through to `mmap` with the invalid descriptor (there
is no return in that branch); when `mmap` fails the descriptor is closed
and `EXIT_FAILURE` returned; the `munmap`/`close`/`return EXIT_SUCCESS`
after the `while (1)` loop (lines 225-228) is unreachable, because the
loop body contains no `break`, so it does not appear in the model. -/
def uio_run (name : String) (env : RunEnv) : List Event × RunResult :=
  let openEvs := Event.openCall name ::
    (if env.openRet < 0
      then [Event.printError "Failure to open /dev/uio0 device"] else [])
  if env.mmapOk then
    let r := runLoop env.iters
    (openEvs ++ [Event.mmapCall env.openRet] ++
      initEvents env.tri0 env.ier0 ++ r.1, r.2)
  else
    (openEvs ++ [Event.mmapCall env.openRet,
      Event.printError "Failure to map memory", Event.closeCall],
     RunResult.exitFailure)

/-- The signal handler `uio_terminate` (main.c lines 129-143): on `SIGINT`
or `SIGKILL` it calls `exit(EXIT_SUCCESS)` directly, performing no other
action; on any other signal it just returns.  The second component is the
exit status when the handler terminates the process. -/
def uio_terminate (signo : Nat) : List Event × Option Nat :=
  if signo = SIGINT then
    ([Event.exitCall EXIT_SUCCESS], some EXIT_SUCCESS)
  else if signo = SIGKILL then
    ([Event.exitCall EXIT_SUCCESS], some EXIT_SUCCESS)
  else
    ([], none)

/-! Model of `main` (lines 234-291).  The `getopt` scan over `argv` is
modelled by its output: a list of recognized options in scan order.  The
C variable `daemonize` is read without initialization when `-D` is never
passed; the model makes the value the variable happens to hold explicit as
`MainEnv.daemonize0`. -/

/-- One option produced by the `getopt(argc, argv, "d:D")` scan. -/
inductive Arg where
  | dOpt (val : String)
  | dFlag
  | unknownOpt (c : Char)
  deriving DecidableEq

/-- Observable actions of `main` outside of `uio_run`; all device access
(the `open`, `mmap` and every register access) happens inside `uio_run`,
whose invocation is recorded as `runCall`. -/
inductive MainEvent where
  | errorMsg (s : String)
  | usageCall
  | forkCall
  | printPid (pid : Int)
  | runCall (name : String)
  deriving DecidableEq

/-- Oracle for `main`: the initial (uninitialized) value of `daemonize`,
whether installing the `SIGINT` handler succeeds, the result of `fork`,
and the oracle passed on to `uio_run`. -/
structure MainEnv where
  daemonize0 : Bool
  signalOk : Bool
  forkRet : Int
  runEnv : RunEnv

/-- The `getopt` switch loop of `main` (lines 246-267): `-d` stores the
argument into `name`, `-D` sets `daemonize`, an unknown option stops the
scan with an error.  Returns (name, daemonize, sawUnknown). -/
def parseOpts : List Arg → Option String → Bool → Option String × Bool × Bool
  | [], name, daem => (name, daem, false)
  | Arg.dOpt v :: rest, _, daem => parseOpts rest (some v) daem
  | Arg.dFlag :: rest, name, _ => parseOpts rest name true
  | Arg.unknownOpt _ :: _, name, daem => (name, daem, true)

/-- `main` (lines 234-291): install the signal handler (exit on failure),
parse options (unknown option prints an error and usage and fails),
optionally daemonize via `fork` (parent prints the child pid and exits
successfully, fork failure exits with failure), then require `name` to be
set (otherwise print usage and fail) and run `uio_run`. -/
def mainRun (args : List Arg) (env : MainEnv) : List MainEvent × RunResult :=
  if env.signalOk then
    match parseOpts args none env.daemonize0 with
    | (name, daem, sawUnknown) =>
      if sawUnknown then
        ([MainEvent.errorMsg "Unknown option", MainEvent.usageCall],
         RunResult.exitFailure)
      else
        let forkPart : List MainEvent × Option RunResult :=
          if daem then
            if env.forkRet < 0 then
              ([MainEvent.forkCall, MainEvent.errorMsg "Failed to fork process"],
               some RunResult.exitFailure)
            else if env.forkRet > 0 then
              ([MainEvent.forkCall, MainEvent.printPid env.forkRet],
               some RunResult.exitSuccess)
            else
              ([MainEvent.forkCall], none)
          else ([], none)
        match forkPart with
        | (evs, some r) => (evs, r)
        | (evs, none) =>
          match name with
          | none => (evs ++ [MainEvent.usageCall], RunResult.exitFailure)
          | some n => (evs ++ [MainEvent.runCall n], (uio_run n env.runEnv).2)
  else ([], RunResult.exitFailure)

/-! Helper predicates over event traces. -/

/-- Is this event the unmask `write` on the device file? -/
def isDevWrite : Event → Bool
  | Event.devWrite _ _ => true
  | _ => false

/-- Is this event a register access (read or write) in the mapped window? -/
def isRegEvent : Event → Bool
  | Event.regRead _ _ => true
  | Event.regWrite _ _ => true
  | _ => false

/-- The register accesses performed before the first unmask write on the
device file, i.e. during peripheral initialization. -/
def regOpsBeforeLoop (t : List Event) : List Event :=
  (t.takeWhile (fun e => !isDevWrite e)).filter isRegEvent

/-! Helper lemmas about the wait loop, shared by several claims. -/

/-- Every iteration of the wait loop begins with the unmask write. -/
lemma runLoop_cons_head (o : IterOracle) (rest : List IterOracle) :
    (runLoop (o :: rest)).1.head? = some (Event.devWrite szUlong o.writeRet) := by
  by_cases h : toSizeT o.writeRet < szUlong
  · simp [runLoop, loopIter, h]
  · by_cases h2 : o.npending = 0
    · simp [runLoop, loopIter, h, h2]
    · by_cases h3 : o.isrVal = 0 <;> simp [runLoop, loopIter, h, h2, h3]

/-- The wait loop part of the trace contributes nothing before the first
unmask write: its very first event is the unmask write. -/
lemma runLoop_takeWhile_nil (o : IterOracle) (rest : List IterOracle) :
    (runLoop (o :: rest)).1.takeWhile (fun e => !isDevWrite e) = [] := by
  by_cases h : toSizeT o.writeRet < szUlong
  · simp [runLoop, loopIter, h, List.takeWhile_cons, isDevWrite]
  · by_cases h2 : o.npending = 0
    · simp [runLoop, loopIter, h, h2, List.takeWhile_cons, isDevWrite]
    · by_cases h3 : o.isrVal = 0 <;>
        simp [runLoop, loopIter, h, h2, h3, List.takeWhile_cons, isDevWrite]

/-- The wait loop never produces a successful exit: the code after
`while (1)` is unreachable. -/
lemma runLoop_ne_success (iters : List IterOracle) :
    (runLoop iters).2 ≠ RunResult.exitSuccess := by
  induction iters with
  | nil => simp [runLoop]
  | cons o rest ih =>
    by_cases h : toSizeT o.writeRet < szUlong
    · simp [runLoop, loopIter, h, EXIT_FAILURE, EXIT_SUCCESS]
    · by_cases h2 : o.npending = 0 <;>
        simpa [runLoop, loopIter, h, h2] using ih

/-- The wait loop unmaps exactly once when it exits with failure and
never otherwise. -/
lemma runLoop_count_munmap (iters : List IterOracle) :
    (runLoop iters).1.count Event.munmapCall
      = (if (runLoop iters).2 = RunResult.exitFailure then 1 else 0) := by
  induction iters with
  | nil => simp [runLoop]
  | cons o rest ih =>
    by_cases h : toSizeT o.writeRet < szUlong
    · simp [runLoop, loopIter, h, EXIT_FAILURE, EXIT_SUCCESS, List.count_cons]
    · by_cases h2 : o.npending = 0
      · simpa [runLoop, loopIter, h, h2, List.count_cons, List.count_append] using ih
      · by_cases h3 : o.isrVal = 0 <;>
          simpa [runLoop, loopIter, h, h2, h3, List.count_cons,
            List.count_append] using ih

/-- The wait loop closes the descriptor exactly as often as it unmaps. -/
lemma runLoop_count_close (iters : List IterOracle) :
    (runLoop iters).1.count Event.closeCall
      = (if (runLoop iters).2 = RunResult.exitFailure then 1 else 0) := by
  induction iters with
  | nil => simp [runLoop]
  | cons o rest ih =>
    by_cases h : toSizeT o.writeRet < szUlong
    · simp [runLoop, loopIter, h, EXIT_FAILURE, EXIT_SUCCESS, List.count_cons]
    · by_cases h2 : o.npending = 0
      · simpa [runLoop, loopIter, h, h2, List.count_cons, List.count_append] using ih
      · by_cases h3 : o.isrVal = 0 <;>
          simpa [runLoop, loopIter, h, h2, h3, List.count_cons,
            List.count_append] using ih

/-- Option scans without `-d` and without `-D` leave `name` unset and
`daemonize` untouched; they either complete cleanly or stop at an unknown
option. -/
lemma parseOpts_no_d (args : List Arg) (daem : Bool)
    (hd : ∀ v, Arg.dOpt v ∉ args) (hD : Arg.dFlag ∉ args) :
    parseOpts args none daem = (none, daem, false) ∨
    parseOpts args none daem = (none, daem, true) := by
  cases args with
  | nil => exact Or.inl rfl
  | cons a rest =>
    cases a with
    | dOpt v => exact absurd (List.mem_cons_self _ _) (hd v)
    | dFlag => exact absurd (List.mem_cons_self _ _) hD
    | unknownOpt c => exact Or.inr rfl

/-! The claims. -/

/-- C1: for every device path whose open and mmap succeed, the peripheral
initialization in `uio_run` performs exactly, and in this order, before
the wait loop: write 0 to GIER; read-modify-write TRI setting bit 0;
read-modify-write IPIER setting bit 0; write GIER with the enable bit.
In particular the global disable comes first and the global re-enable
last. -/
theorem C1_init_order (name : String) (env : RunEnv)
    (hopen : 0 ≤ env.openRet) (hmap : env.mmapOk = true) :
    regOpsBeforeLoop (uio_run name env).1 =
      [Event.regWrite AXI_GPIO_GIER_OFFSET 0,
       Event.regRead AXI_GPIO_TRI_OFFSET env.tri0,
       Event.regWrite AXI_GPIO_TRI_OFFSET (env.tri0 ||| 1),
       Event.regRead AXI_GPIO_IPIER_OFFSET env.ier0,
       Event.regWrite AXI_GPIO_IPIER_OFFSET (env.ier0 ||| 1),
       Event.regWrite AXI_GPIO_GIER_OFFSET AXI_GPIO_GIER_ENABLE] := by
  obtain ⟨openRet, mmapOk, tri0, ier0, iters⟩ := env
  simp only at hopen hmap
  subst hmap
  have h1 : ¬ (openRet < 0) := not_lt.mpr hopen
  cases iters with
  | nil =>
    simp [uio_run, runLoop, regOpsBeforeLoop, initEvents, h1,
      List.takeWhile, List.filter, isDevWrite, isRegEvent]
  | cons o rest =>
    have htl := runLoop_takeWhile_nil o rest
    simp only [isDevWrite] at htl
    simp [uio_run, regOpsBeforeLoop, initEvents, h1,
      List.takeWhile_cons, htl, List.filter, isDevWrite, isRegEvent]

/-- C1 witness: concrete successful run. -/
theorem C1_init_order_witness :
    regOpsBeforeLoop (uio_run "/dev/uio0"
      ⟨3, true, 0, 0, [⟨4, 4, 2, 1, 7⟩]⟩).1 =
      [Event.regWrite AXI_GPIO_GIER_OFFSET 0,
       Event.regRead AXI_GPIO_TRI_OFFSET 0,
       Event.regWrite AXI_GPIO_TRI_OFFSET (0 ||| 1),
       Event.regRead AXI_GPIO_IPIER_OFFSET 0,
       Event.regWrite AXI_GPIO_IPIER_OFFSET (0 ||| 1),
       Event.regWrite AXI_GPIO_GIER_OFFSET AXI_GPIO_GIER_ENABLE] :=
  C1_init_order "/dev/uio0" ⟨3, true, 0, 0, [⟨4, 4, 2, 1, 7⟩]⟩
    (by decide) rfl

/-- C2: in a run whose wait-read reports a non-zero pending count, the
handling branch reads the interrupt-status register, writes the very same
value back iff it is non-zero (and before any further register read), and
then reads the data register unchanged for reporting.  The full trace of
a one-iteration run is pinned down event by event. -/
theorem C2_handling_order (name : String) (env : RunEnv) (o : IterOracle)
    (hopen : 0 ≤ env.openRet) (hmap : env.mmapOk = true)
    (hiters : env.iters = [o]) (hw : szUlong ≤ toSizeT o.writeRet)
    (hp : o.npending ≠ 0) :
    (uio_run name env).1 =
      [Event.openCall name, Event.mmapCall env.openRet] ++
      initEvents env.tri0 env.ier0 ++
      [Event.devWrite szUlong o.writeRet, Event.devRead szUlong o.readRet,
       Event.printMsg "Interrupt was detected",
       Event.regRead AXI_GPIO_IPISR_OFFSET o.isrVal] ++
      (if o.isrVal ≠ 0
        then [Event.regWrite AXI_GPIO_IPISR_OFFSET o.isrVal] else []) ++
      [Event.regRead AXI_GPIO_DATA_OFFSET o.dataVal] := by
  obtain ⟨openRet, mmapOk, tri0, ier0, iters⟩ := env
  simp only at hopen hmap hiters
  subst hmap hiters
  have h1 : ¬ (openRet < 0) := not_lt.mpr hopen
  have hw1 : ¬ (toSizeT o.writeRet < szUlong) := not_lt.mpr hw
  by_cases h3 : o.isrVal = 0 <;>
    simp [uio_run, runLoop, loopIter, initEvents, h1, hw1, hp, h3]

/-- C2 witness: the scenario of the spec, pending count 2 and status read
0x1: the status register is written back with 0x1 and the data register
is read. -/
theorem C2_handling_order_witness :
    (uio_run "/dev/uio0" ⟨3, true, 0, 0, [⟨4, 4, 2, 1, 7⟩]⟩).1 =
      [Event.openCall "/dev/uio0", Event.mmapCall 3] ++
      initEvents 0 0 ++
      [Event.devWrite szUlong 4, Event.devRead szUlong 4,
       Event.printMsg "Interrupt was detected",
       Event.regRead AXI_GPIO_IPISR_OFFSET 1] ++
      (if (1 : Nat) ≠ 0
        then [Event.regWrite AXI_GPIO_IPISR_OFFSET 1] else []) ++
      [Event.regRead AXI_GPIO_DATA_OFFSET 7] :=
  C2_handling_order "/dev/uio0" ⟨3, true, 0, 0, [⟨4, 4, 2, 1, 7⟩]⟩
    ⟨4, 4, 2, 1, 7⟩ (by decide) rfl rfl (by decide) (by decide)

/-- C3: when the unmask write on the device file returns a byte count
smaller than the requested word size, the loop terminates at once with no
retry: the trace ends with the diagnostic, the unmap and the close, no
further iteration runs (the remaining oracles are never consumed), and
the run result is failure. -/
theorem C3_short_unmask_fatal (name : String) (env : RunEnv)
    (o : IterOracle) (rest : List IterOracle)
    (hopen : 0 ≤ env.openRet) (hmap : env.mmapOk = true)
    (hiters : env.iters = o :: rest)
    (hshort : toSizeT o.writeRet < szUlong) :
    uio_run name env =
      ([Event.openCall name, Event.mmapCall env.openRet] ++
       initEvents env.tri0 env.ier0 ++
       [Event.devWrite szUlong o.writeRet,
        Event.printError "Unmasking interrupts",
        Event.munmapCall, Event.closeCall],
       RunResult.exitFailure) := by
  obtain ⟨openRet, mmapOk, tri0, ier0, iters⟩ := env
  simp only at hopen hmap hiters
  subst hmap hiters
  have h1 : ¬ (openRet < 0) := not_lt.mpr hopen
  simp [uio_run, runLoop, loopIter, initEvents, h1, hshort,
    EXIT_FAILURE, EXIT_SUCCESS]

/-- C3 witness: a first unmask write that reports 0 of 4 bytes written
(with further oracles queued that are never reached). -/
theorem C3_short_unmask_fatal_witness :
    uio_run "/dev/uio0" ⟨3, true, 0, 0, [⟨0, 4, 1, 1, 7⟩, ⟨4, 4, 1, 1, 7⟩]⟩ =
      ([Event.openCall "/dev/uio0", Event.mmapCall 3] ++
       initEvents 0 0 ++
       [Event.devWrite szUlong 0,
        Event.printError "Unmasking interrupts",
        Event.munmapCall, Event.closeCall],
       RunResult.exitFailure) :=
  C3_short_unmask_fatal "/dev/uio0"
    ⟨3, true, 0, 0, [⟨0, 4, 1, 1, 7⟩, ⟨4, 4, 1, 1, 7⟩]⟩
    ⟨0, 4, 1, 1, 7⟩ [⟨4, 4, 1, 1, 7⟩] (by decide) rfl rfl (by decide)

/-- C7: when open succeeds but mmap fails, `uio_run` prints the map
diagnostic, closes the descriptor and returns failure; the trace equality
shows the close happens before the return and that no register access of
any kind is performed. -/
theorem C7_mapfail_closes (name : String) (env : RunEnv)
    (hopen : 0 ≤ env.openRet) (hmap : env.mmapOk = false) :
    uio_run name env =
      ([Event.openCall name, Event.mmapCall env.openRet,
        Event.printError "Failure to map memory", Event.closeCall],
       RunResult.exitFailure) := by
  obtain ⟨openRet, mmapOk, tri0, ier0, iters⟩ := env
  simp only at hopen hmap
  subst hmap
  have h1 : ¬ (openRet < 0) := not_lt.mpr hopen
  simp [uio_run, h1]

/-- C7 witness: a concrete run with a good descriptor and a failing mmap. -/
theorem C7_mapfail_closes_witness :
    uio_run "/dev/uio0" ⟨5, false, 0, 0, []⟩ =
      ([Event.openCall "/dev/uio0", Event.mmapCall 5,
        Event.printError "Failure to map memory", Event.closeCall],
       RunResult.exitFailure) :=
  C7_mapfail_closes "/dev/uio0" ⟨5, false, 0, 0, []⟩ (by decide) rfl

/-- C8: in every loop iteration the unmask write comes first and, unless
the iteration takes the error exit, is followed by the blocking wait-read;
an iteration that does not error continues unconditionally with the rest
of the loop; and the only ways the loop ends are the I/O-error exit (the
short unmask write) or not ending at all — a successful exit from inside
the loop is impossible. -/
theorem C8_loop_protocol (o : IterOracle) (rest : List IterOracle) :
    (loopIter o).1.take 1 = [Event.devWrite szUlong o.writeRet] ∧
    ((loopIter o).2 = none →
      (loopIter o).1.take 2 =
        [Event.devWrite szUlong o.writeRet,
         Event.devRead szUlong o.readRet]) ∧
    ((loopIter o).2 = none →
      runLoop (o :: rest) =
        ((loopIter o).1 ++ (runLoop rest).1, (runLoop rest).2)) ∧
    (runLoop (o :: rest)).2 ≠ RunResult.exitSuccess ∧
    ((runLoop (o :: rest)).2 = RunResult.exitFailure →
      toSizeT o.writeRet < szUlong ∨
      (runLoop rest).2 = RunResult.exitFailure) := by
  by_cases h : toSizeT o.writeRet < szUlong
  · refine ⟨by simp [loopIter, h], ?_, ?_, runLoop_ne_success _, ?_⟩
    · intro hc; simp [loopIter, h] at hc
    · intro hc; simp [loopIter, h] at hc
    · intro _; exact Or.inl h
  · by_cases h2 : o.npending = 0
    · refine ⟨by simp [loopIter, h, h2], by simp [loopIter, h, h2],
        ?_, runLoop_ne_success _, ?_⟩
      · intro _; simp [runLoop, loopIter, h, h2]
      · intro hf; right
        simpa [runLoop, loopIter, h, h2] using hf
    · by_cases h3 : o.isrVal = 0
      · refine ⟨by simp [loopIter, h, h2, h3], by simp [loopIter, h, h2, h3],
          ?_, runLoop_ne_success _, ?_⟩
        · intro _; simp [runLoop, loopIter, h, h2, h3]
        · intro hf; right
          simpa [runLoop, loopIter, h, h2, h3] using hf
      · refine ⟨by simp [loopIter, h, h2, h3], by simp [loopIter, h, h2, h3],
          ?_, runLoop_ne_success _, ?_⟩
        · intro _; simp [runLoop, loopIter, h, h2, h3]
        · intro hf; right
          simpa [runLoop, loopIter, h, h2, h3] using hf

/-- C8 witness: a handled iteration followed by an empty tail. -/
theorem C8_loop_protocol_witness :
    (loopIter ⟨4, 4, 2, 1, 7⟩).1.take 2 =
      [Event.devWrite szUlong 4, Event.devRead szUlong 4] ∧
    runLoop [⟨4, 4, 2, 1, 7⟩] =
      ((loopIter ⟨4, 4, 2, 1, 7⟩).1 ++ (runLoop []).1, (runLoop []).2) :=
  ⟨(C8_loop_protocol ⟨4, 4, 2, 1, 7⟩ []).2.1 (by decide),
   (C8_loop_protocol ⟨4, 4, 2, 1, 7⟩ []).2.2.1 (by decide)⟩

/-- C9: an invocation without the `-d` option that does not daemonize
(no `-D` and the uninitialized `daemonize` variable happens to hold 0)
prints the usage text, exits with failure, never calls `uio_run` (so no
device access of any kind occurs) and never forks. -/
theorem C9_missing_d (args : List Arg) (env : MainEnv)
    (hd : ∀ v, Arg.dOpt v ∉ args) (hD : Arg.dFlag ∉ args)
    (hdaem : env.daemonize0 = false) (hsig : env.signalOk = true) :
    MainEvent.usageCall ∈ (mainRun args env).1 ∧
    (mainRun args env).2 = RunResult.exitFailure ∧
    (∀ n, MainEvent.runCall n ∉ (mainRun args env).1) ∧
    MainEvent.forkCall ∉ (mainRun args env).1 := by
  obtain ⟨daem0, sigOk, forkRet, renv⟩ := env
  simp only at hdaem hsig
  subst hdaem hsig
  rcases parseOpts_no_d args false hd hD with h | h <;>
    simp [mainRun, h]

/-- C9 witness: empty option stream with a well-defined environment. -/
theorem C9_missing_d_witness :
    MainEvent.usageCall ∈ (mainRun [] ⟨false, true, 0, ⟨3, true, 0, 0, []⟩⟩).1 ∧
    (mainRun [] ⟨false, true, 0, ⟨3, true, 0, 0, []⟩⟩).2 =
      RunResult.exitFailure :=
  have h := C9_missing_d [] ⟨false, true, 0, ⟨3, true, 0, 0, []⟩⟩
    (by intro v; simp) (by simp) rfl rfl
  ⟨h.1, h.2.1⟩

/-- C10: when the unmask `write` call returns -1, the conversion into the
`size_t` variable `nb` yields 2^32 - 1, which is not smaller than the
requested word size, so the fatal short-write branch is not taken: no
diagnostic, no unmap, no close, and the iteration proceeds to the
blocking wait-read as if the unmask had succeeded. -/
theorem C10_write_error_missed (o : IterOracle) (h : o.writeRet = -1) :
    toSizeT o.writeRet = 2 ^ 32 - 1 ∧
    ¬ (toSizeT o.writeRet < szUlong) ∧
    (loopIter o).2 = none ∧
    (loopIter o).1.take 2 =
      [Event.devWrite szUlong o.writeRet,
       Event.devRead szUlong o.readRet] ∧
    Event.munmapCall ∉ (loopIter o).1 ∧
    Event.closeCall ∉ (loopIter o).1 ∧
    (∀ s, Event.printError s ∉ (loopIter o).1) := by
  have ht : toSizeT o.writeRet = 2 ^ 32 - 1 := by rw [h]; decide
  have hlt : ¬ (toSizeT o.writeRet < szUlong) := by rw [ht]; decide
  refine ⟨ht, hlt, ?_, ?_, ?_, ?_, ?_⟩ <;>
    by_cases h2 : o.npending = 0 <;>
      by_cases h3 : o.isrVal = 0 <;>
        simp [loopIter, hlt, h2, h3]

/-- C10 witness: a concrete iteration whose unmask write returned -1. -/
theorem C10_write_error_missed_witness :
    toSizeT (IterOracle.writeRet ⟨-1, 4, 0, 0, 0⟩) = 2 ^ 32 - 1 ∧
    (loopIter ⟨-1, 4, 0, 0, 0⟩).2 = none ∧
    Event.munmapCall ∉ (loopIter ⟨-1, 4, 0, 0, 0⟩).1 :=
  have h := C10_write_error_missed ⟨-1, 4, 0, 0, 0⟩ rfl
  ⟨h.1, h.2.2.1, h.2.2.2.2.1⟩

/-- C4: evaluation of the code at a failing open.  Opening "/dev/uio9"
fails (`open` returns -1).  The trace shows that the code prints the
hardcoded diagnostic "Failure to open /dev/uio0 device" — which does not
name the supplied path — and then, because the open-failure branch has no
return, proceeds to call `mmap` with the invalid descriptor -1; only the
subsequent mmap failure produces the failure exit. -/
theorem C4_openfail_no_return :
    uio_run "/dev/uio9" ⟨-1, false, 0, 0, []⟩ =
      ([Event.openCall "/dev/uio9",
        Event.printError "Failure to open /dev/uio0 device",
        Event.mmapCall (-1),
        Event.printError "Failure to map memory", Event.closeCall],
       RunResult.exitFailure) := by
  decide

/-- C5 counterexample: a run whose wait-read returns 0 of the 4 requested
bytes.  The claim says this is reported and terminal with cleanup; in
fact the loop neither reports nor cleans up nor terminates — the full
trace ends with the short read and the result is `running`, not a
failure exit. -/
theorem C5_short_read_not_fatal :
    uio_run "/dev/uio0" ⟨3, true, 0, 0, [⟨4, 0, 0, 0, 0⟩]⟩ =
      ([Event.openCall "/dev/uio0", Event.mmapCall 3] ++
       initEvents 0 0 ++
       [Event.devWrite szUlong 4, Event.devRead szUlong 0],
       RunResult.running) ∧
    (uio_run "/dev/uio0" ⟨3, true, 0, 0, [⟨4, 0, 0, 0, 0⟩]⟩).2 ≠
      RunResult.exitFailure := by
  decide

/-- C5 amended: the return value of the wait-read is never checked.
Whatever byte count the `read` on the device file returns — short, zero
or an error return — the iteration never takes an error exit, never
unmaps or closes, and prints no diagnostic; only the unmask write's byte
count is checked. -/
theorem C5_read_unchecked (o : IterOracle)
    (hw : szUlong ≤ toSizeT o.writeRet) :
    (loopIter o).2 = none ∧
    Event.munmapCall ∉ (loopIter o).1 ∧
    Event.closeCall ∉ (loopIter o).1 ∧
    (∀ s, Event.printError s ∉ (loopIter o).1) := by
  have hw1 : ¬ (toSizeT o.writeRet < szUlong) := not_lt.mpr hw
  refine ⟨?_, ?_, ?_, ?_⟩ <;>
    by_cases h2 : o.npending = 0 <;>
      by_cases h3 : o.isrVal = 0 <;>
        simp [loopIter, hw1, h2, h3]

/-- C5 amended witness: a short wait-read of 0 bytes is silently ignored. -/
theorem C5_read_unchecked_witness :
    (loopIter ⟨4, 0, 0, 0, 0⟩).2 = none ∧
    Event.munmapCall ∉ (loopIter ⟨4, 0, 0, 0, 0⟩).1 :=
  have h := C5_read_unchecked ⟨4, 0, 0, 0, 0⟩ (by decide)
  ⟨h.1, h.2.1⟩

/-- C6 counterexample: on the signal-driven exit path the claim fails.
The `SIGINT` handler `uio_terminate` terminates the process (it calls
`exit(EXIT_SUCCESS)`) while performing zero unmaps and zero closes — not
the exactly-once teardown the claim asserts for every exit path. -/
theorem C6_signal_exit_no_teardown :
    uio_terminate SIGINT = ([Event.exitCall EXIT_SUCCESS], some EXIT_SUCCESS) ∧
    (uio_terminate SIGINT).1.count Event.munmapCall = 0 ∧
    (uio_terminate SIGINT).1.count Event.closeCall = 0 := by
  decide

/-- C6 amended: within `uio_run` after a successful open and mmap, unmap
and close are performed equally often, at most once, and exactly once
precisely when the run exits with failure; a successful return from the
loop is impossible (the post-loop teardown is unreachable); and the
signal handler exits the process without performing any unmap or close
itself. -/
theorem C6_teardown_amended (name : String) (env : RunEnv)
    (hopen : 0 ≤ env.openRet) (hmap : env.mmapOk = true) :
    ((uio_run name env).1.count Event.munmapCall
        = (uio_run name env).1.count Event.closeCall) ∧
    (uio_run name env).1.count Event.munmapCall ≤ 1 ∧
    ((uio_run name env).2 = RunResult.exitFailure ↔
        (uio_run name env).1.count Event.munmapCall = 1) ∧
    (uio_run name env).2 ≠ RunResult.exitSuccess ∧
    (uio_terminate SIGINT).1.count Event.munmapCall = 0 ∧
    (uio_terminate SIGINT).1.count Event.closeCall = 0 := by
  obtain ⟨openRet, mmapOk, tri0, ier0, iters⟩ := env
  simp only at hopen hmap
  subst hmap
  have h1 : ¬ (openRet < 0) := not_lt.mpr hopen
  have hm := runLoop_count_munmap iters
  have hc := runLoop_count_close iters
  have hs := runLoop_ne_success iters
  by_cases hf : (runLoop iters).2 = RunResult.exitFailure <;>
    simp [uio_run, initEvents, h1, List.count_cons, List.count_append,
      hm, hc, hf, hs, uio_terminate, SIGINT]

/-- C6 amended witness: a run ending in the short-write failure exit
performs the teardown exactly once. -/
theorem C6_teardown_amended_witness :
    ((uio_run "/dev/uio0" ⟨3, true, 0, 0, [⟨0, 4, 0, 0, 0⟩]⟩).1.count
        Event.munmapCall
      = (uio_run "/dev/uio0" ⟨3, true, 0, 0, [⟨0, 4, 0, 0, 0⟩]⟩).1.count
        Event.closeCall) ∧
    ((uio_run "/dev/uio0" ⟨3, true, 0, 0, [⟨0, 4, 0, 0, 0⟩]⟩).2 =
        RunResult.exitFailure ↔
      (uio_run "/dev/uio0" ⟨3, true, 0, 0, [⟨0, 4, 0, 0, 0⟩]⟩).1.count
        Event.munmapCall = 1) :=
  have h := C6_teardown_amended "/dev/uio0" ⟨3, true, 0, 0, [⟨0, 4, 0, 0, 0⟩]⟩
    (by decide) rfl
  ⟨h.1, h.2.2.1⟩

end UioTest
